import Mathlib

/-!
Shallow embedding of the mini OpenAI-compatible chat server
(`scripts/server.py`) in Lean 4, together with theorems about its
request/response shaping logic:
the prompt builder, the model-cache resolver, and the chat-completions
handler (parameter defaulting, generation arguments, completion
extraction, usage accounting, and the response envelope).

External collaborators (tokenizer, model generation, decoding) are
modelled as abstract functions bundled in a `Runtime` record.  The
generation contract follows the source and spec: `model.generate`
returns the prompt token sequence followed by the newly generated
tokens.
-/

namespace MiniAI

/-- An OpenAI-style chat message as received in the request JSON.
Fields may be absent from the record (`msg.get("role", "user")` /
`msg.get("content", "")` in the source), hence `Option`. -/
structure Msg where
  role : Option String
  content : Option String
  deriving Repr, DecidableEq

/-- The line rendered for one message: `f"{role}: {content}"` with the
defensive defaults of `msg.get` in `build_prompt`. -/
def lineOf (m : Msg) : String :=
  m.role.getD "user" ++ ": " ++ m.content.getD ""

/-- Embedding of `build_prompt` (`scripts/server.py` lines 19–27):
a loop appends one line per message to `transcript`, then the literal
line `"assistant:"` is appended and everything is joined with `"\n"`. -/
def build_prompt (messages : List Msg) : String :=
  let transcript := messages.foldl (fun acc m => acc ++ [lineOf m]) []
  String.intercalate "\n" (transcript ++ ["assistant:"])

/-- Embedding of `ensure_model` (`scripts/server.py` lines 30–44).
The filesystem is a map from directory path to its entries
(`target_dir.iterdir()`); `mkdir(exist_ok=True)` never changes the
entry list.  `snapshotFiles` is the artifact set that
`snapshot_download` would place in the directory.  Returns the new
filesystem, the returned path, and whether a remote fetch happened. -/
def ensure_model (snapshotFiles : List String) (fs : String → List String)
    (target_dir : String) : (String → List String) × String × Bool :=
  if fs target_dir ≠ [] then
    (fs, target_dir, false)
  else
    (fun p => if p = target_dir then snapshotFiles else fs p, target_dir, true)

/-- One hexadecimal digit character, lowercase (as `"%x"` formatting
uses: `0`–`9` then `a`–`f`). -/
def hexDigit (d : Nat) : Char :=
  if d < 10 then Char.ofNat (48 + d) else Char.ofNat (87 + d)

/-- Fixed-width lowercase hexadecimal rendering of `n`, `k` digits,
most significant first, zero-padded — the format of `"%032x" % n`. -/
def hexDigits : Nat → Nat → List Char
  | 0, _ => []
  | k + 1, n => hexDigits k (n / 16) ++ [hexDigit (n % 16)]

/-- `uuid.uuid4().hex`: the 128-bit random value printed as exactly 32
lowercase hex digits, zero-padded.  `n` stands for the random bits. -/
def uuid4Hex (n : Nat) : String :=
  String.mk (hexDigits 32 (n % 2 ^ 128))

/-- The response id `f"chatcmpl-{uuid.uuid4().hex[:12]}"`
(`scripts/server.py` line 106). -/
def responseIdOf (n : Nat) : String :=
  "chatcmpl-" ++ String.mk ((uuid4Hex n).data.take 12)

/-- The keyword arguments passed to `model.generate` by the handler. -/
structure GenArgs where
  input_ids : List Nat
  pad_token_id : Nat
  do_sample : Bool
  temperature : Rat
  top_p : Rat
  max_new_tokens : Int
  deriving Repr

/-- The abstract model runtime: tokenizer encode/decode and the
generation capability.  `newTokens` gives the tokens generated after
the prompt; per the generation contract, `model.generate` returns
`input_ids ++ newTokens args`. -/
structure Runtime where
  tokenize : String → List Nat
  eos_token_id : Nat
  decode : List Nat → String
  newTokens : GenArgs → List Nat

/-- The message object inside a response choice. -/
structure RespMessage where
  role : String
  content : String
  deriving Repr, DecidableEq

/-- One element of the `choices` array. -/
structure Choice where
  index : Nat
  message : RespMessage
  finish_reason : String
  deriving Repr, DecidableEq

/-- The `usage` block.  Python ints, so `Int`. -/
structure Usage where
  prompt_tokens : Int
  completion_tokens : Int
  total_tokens : Int
  deriving Repr, DecidableEq

/-- The chat-completion response envelope. -/
structure ChatCompletionResponse where
  id : String
  object : String
  created : Int
  model : String
  choices : List Choice
  usage : Usage
  deriving Repr

/-- The request payload after JSON parsing: each field may be absent
(`payload.get(...)` with a default in the source). -/
structure Payload where
  messages : Option (List Msg)
  max_tokens : Option Int
  temperature : Option Rat
  top_p : Option Rat
  deriving Repr

/-- Everything observable about one run of the handler: the rendered
prompt, the arguments passed to `model.generate`, the decoded full
output text, the extracted completion, and the response envelope. -/
structure HandlerResult where
  prompt : String
  genArgs : GenArgs
  decoded : String
  completion : String
  response : ChatCompletionResponse

/-- Embedding of the `chat_completions` handler
(`scripts/server.py` lines 85–126).  `rt` is the loaded runtime,
`model_repo` the configured model name, `uuidVal` the random bits
behind `uuid.uuid4()`, and `now` the value of `int(time.time())`. -/
def chat_completions (rt : Runtime) (model_repo : String) (payload : Payload)
    (uuidVal : Nat) (now : Int) : HandlerResult :=
  let messages := payload.messages.getD []
  let max_tokens : Int := max 16 (payload.max_tokens.getD 128)
  let temperature : Rat := payload.temperature.getD (7 / 10)
  let top_p : Rat := payload.top_p.getD (8 / 10)
  let prompt := build_prompt messages
  let inputIds := rt.tokenize prompt
  let args : GenArgs :=
    { input_ids := inputIds
      pad_token_id := rt.eos_token_id
      do_sample := decide (temperature > 0)
      temperature := temperature
      top_p := top_p
      max_new_tokens := max_tokens }
  let output := inputIds ++ rt.newTokens args
  let decoded := rt.decode output
  let completion :=
    if (decoded.drop prompt.length).trim = "" then decoded
    else (decoded.drop prompt.length).trim
  let usage : Usage :=
    { prompt_tokens := (inputIds.length : Int)
      completion_tokens := max 0 ((output.length : Int) - (inputIds.length : Int))
      total_tokens := (output.length : Int) }
  { prompt := prompt
    genArgs := args
    decoded := decoded
    completion := completion
    response :=
      { id := responseIdOf uuidVal
        object := "chat.completion"
        created := now
        model := model_repo
        choices :=
          [{ index := 0
             message := { role := "assistant", content := completion }
             finish_reason := "stop" }]
        usage := usage } }

/-- The completion-extraction step as the spec words it: strip the
character length of the prompt from the front of the decoded text, trim
whitespace, and fall back to the whole decoded text when the remainder
is empty.  Used to compare against the inline computation in the handler. -/
def completionOfSpec (decoded prompt : String) : String :=
  let remainder := (decoded.drop prompt.length).trim
  if remainder = "" then decoded else remainder

/-! ## Helper lemmas -/

theorem foldl_append_singleton {α β : Type} (f : α → β) :
    ∀ (l : List α) (acc : List β),
      l.foldl (fun a m => a ++ [f m]) acc = acc ++ l.map f := by
  intro l
  induction l with
  | nil => intro acc; simp
  | cons x xs ih => intro acc; simp [ih]

theorem completionOfSpec_ne_empty (d p : String) (hd : d ≠ "") :
    completionOfSpec d p ≠ "" := by
  unfold completionOfSpec
  by_cases h : (d.drop p.length).trim = "" <;> simp [h, hd]

/-! ## Claim theorems -/

/-- C3: `build_prompt` emits one line `"{role}: {content}"` per message in
order, then a final line `"assistant:"`, joined with newlines and no
trailing newline; the empty sequence yields exactly `"assistant:"`. -/
theorem build_prompt_renders_lines (rs : List (String × String)) :
    build_prompt (rs.map fun rc => { role := some rc.1, content := some rc.2 }) =
      String.intercalate "\n"
        ((rs.map fun rc => rc.1 ++ ": " ++ rc.2) ++ ["assistant:"]) ∧
    build_prompt [] = "assistant:" := by
  constructor
  · unfold build_prompt
    rw [foldl_append_singleton]
    simp [lineOf, Function.comp_def]
  · decide

/-- C7: `build_prompt` is total on records with absent fields: a missing
role renders as `"user"` and missing content as the empty string, never
an error. -/
theorem build_prompt_defaults (r c : Option String) (rest : List Msg) :
    build_prompt ({ role := none, content := c } :: rest) =
      build_prompt ({ role := some "user", content := c } :: rest) ∧
    build_prompt ({ role := r, content := none } :: rest) =
      build_prompt ({ role := r, content := some "" } :: rest) ∧
    build_prompt [{ role := none, content := none }] = "user: \nassistant:" := by
  refine ⟨rfl, rfl, by decide⟩

/-- C6: `ensure_model` is idempotent: a non-empty target directory causes
no fetch and is returned unchanged, and two successive calls on the same
directory fetch at most once, the second being a no-op returning the
same directory. -/
theorem ensure_model_idem (snapshotFiles : List String)
    (fs : String → List String) (dir : String) (hsnap : snapshotFiles ≠ []) :
    (fs dir ≠ [] → ensure_model snapshotFiles fs dir = (fs, dir, false)) ∧
    (ensure_model snapshotFiles fs dir).2.1 = dir ∧
    ensure_model snapshotFiles (ensure_model snapshotFiles fs dir).1 dir =
      ((ensure_model snapshotFiles fs dir).1, dir, false) := by
  by_cases h : fs dir = [] <;> simp [ensure_model, h, hsnap]

/-- Witness for C6 at a concrete filesystem: an empty directory is
fetched once, the second call is a no-op. -/
theorem ensure_model_idem_witness :
    (["config.json"] ≠ ([] : List String)) ∧
    ((((fun _ => []) : String → List String) "models" ≠ [] →
      ensure_model ["config.json"] (fun _ => []) "models" =
        ((fun _ => []), "models", false)) ∧
    (ensure_model ["config.json"] (fun _ => ([] : List String)) "models").2.1 =
      "models" ∧
    ensure_model ["config.json"]
        (ensure_model ["config.json"] (fun _ => ([] : List String)) "models").1
        "models" =
      ((ensure_model ["config.json"] (fun _ => ([] : List String)) "models").1,
        "models", false)) :=
  ⟨by decide, ensure_model_idem ["config.json"] (fun _ => []) "models" (by decide)⟩

/-- C1: usage accounting: `total_tokens = prompt_tokens + completion_tokens`
and `completion_tokens ≥ 0`, with `prompt_tokens` the length of the
tokenized prompt and `total_tokens` the length of the full output. -/
theorem usage_accounting (rt : Runtime) (mr : String) (p : Payload)
    (u : Nat) (t : Int) :
    (chat_completions rt mr p u t).response.usage.total_tokens =
      (chat_completions rt mr p u t).response.usage.prompt_tokens +
        (chat_completions rt mr p u t).response.usage.completion_tokens ∧
    0 ≤ (chat_completions rt mr p u t).response.usage.completion_tokens ∧
    (chat_completions rt mr p u t).response.usage.prompt_tokens =
      ((rt.tokenize (chat_completions rt mr p u t).prompt).length : Int) ∧
    (chat_completions rt mr p u t).response.usage.total_tokens =
      (((chat_completions rt mr p u t).genArgs.input_ids ++
          rt.newTokens (chat_completions rt mr p u t).genArgs).length : Int) := by
  refine ⟨?_, ?_, rfl, rfl⟩
  · simp [chat_completions]
  · simp [chat_completions]

/-- C2: the content of the single choice equals the decoded text with the
character length of the rendered prompt removed from the front, trimmed,
falling back to the entire decoded text when that remainder is empty. -/
theorem completion_extraction (rt : Runtime) (mr : String) (p : Payload)
    (u : Nat) (t : Int) :
    (chat_completions rt mr p u t).completion =
      completionOfSpec (chat_completions rt mr p u t).decoded
        (chat_completions rt mr p u t).prompt ∧
    (chat_completions rt mr p u t).response.choices.map
        (fun c => c.message.content) =
      [(chat_completions rt mr p u t).completion] :=
  ⟨rfl, rfl⟩

/-- C4: the effective `max_new_tokens` is `max 16 requested` (128 when the
field is absent, 16 when 1 is requested); `temperature` defaults to 0.7,
`top_p` to 0.8, `messages` to the empty sequence. -/
theorem parameter_defaults (rt : Runtime) (mr : String) (p : Payload)
    (mt : Int) (u : Nat) (t : Int) :
    (chat_completions rt mr p u t).genArgs.max_new_tokens =
      max 16 (p.max_tokens.getD 128) ∧
    (chat_completions rt mr { p with max_tokens := some mt } u t).genArgs.max_new_tokens =
      max 16 mt ∧
    (chat_completions rt mr { p with max_tokens := none } u t).genArgs.max_new_tokens =
      128 ∧
    (chat_completions rt mr { p with max_tokens := some 1 } u t).genArgs.max_new_tokens =
      16 ∧
    (chat_completions rt mr { p with temperature := none } u t).genArgs.temperature =
      7 / 10 ∧
    (chat_completions rt mr { p with top_p := none } u t).genArgs.top_p = 8 / 10 ∧
    (chat_completions rt mr { p with messages := none } u t).prompt =
      build_prompt [] := by
  refine ⟨rfl, rfl, ?_, ?_, rfl, rfl, rfl⟩
  · simp [chat_completions]
  · simp [chat_completions]

/-- C5: the `do_sample` flag handed to generation is true iff the
effective temperature is strictly positive; temperature exactly 0 gives
`do_sample = false`. -/
theorem sampling_flag (rt : Runtime) (mr : String) (p : Payload)
    (u : Nat) (t : Int) :
    ((chat_completions rt mr p u t).genArgs.do_sample = true ↔
      0 < p.temperature.getD (7 / 10)) ∧
    (chat_completions rt mr { p with temperature := some 0 } u t).genArgs.do_sample =
      false := by
  constructor
  · simp [chat_completions]
  · simp [chat_completions]

/-- C8: every response has exactly one choice, whose `finish_reason` is
the constant `"stop"`, whose message role is `"assistant"`, and whose
index is 0. -/
theorem single_stop_choice (rt : Runtime) (mr : String) (p : Payload)
    (u : Nat) (t : Int) :
    (chat_completions rt mr p u t).response.choices.length = 1 ∧
    (chat_completions rt mr p u t).response.choices.map
        (fun c => c.finish_reason) = ["stop"] ∧
    (chat_completions rt mr p u t).response.choices.map
        (fun c => c.message.role) = ["assistant"] ∧
    (chat_completions rt mr p u t).response.choices.map
        (fun c => c.index) = [0] :=
  ⟨rfl, rfl, rfl, rfl⟩

/-- C9: whenever the decoded full output text is non-empty, the content
placed in the single choice is non-empty: the fallback in the extraction
step guarantees an empty completion only for empty decoded text. -/
theorem nonempty_completion (rt : Runtime) (mr : String) (p : Payload)
    (u : Nat) (t : Int)
    (h : (chat_completions rt mr p u t).decoded ≠ "") :
    (chat_completions rt mr p u t).completion ≠ "" ∧
    (chat_completions rt mr p u t).response.choices.map
        (fun c => c.message.content) =
      [(chat_completions rt mr p u t).completion] := by
  refine ⟨?_, rfl⟩
  have h2 : (chat_completions rt mr p u t).completion =
      completionOfSpec (chat_completions rt mr p u t).decoded
        (chat_completions rt mr p u t).prompt := rfl
  rw [h2]
  exact completionOfSpec_ne_empty _ _ h

/-- Witness for C9 at a concrete runtime whose decoder returns
`"hello"`. -/
theorem nonempty_completion_witness :
    (chat_completions ⟨fun _ => [], 0, fun _ => "hello", fun _ => []⟩ "m"
        ⟨some [], some 20, some 1, some 1⟩ 0 0).decoded ≠ "" ∧
    ((chat_completions ⟨fun _ => [], 0, fun _ => "hello", fun _ => []⟩ "m"
        ⟨some [], some 20, some 1, some 1⟩ 0 0).completion ≠ "" ∧
    (chat_completions ⟨fun _ => [], 0, fun _ => "hello", fun _ => []⟩ "m"
        ⟨some [], some 20, some 1, some 1⟩ 0 0).response.choices.map
        (fun c => c.message.content) =
      [(chat_completions ⟨fun _ => [], 0, fun _ => "hello", fun _ => []⟩ "m"
          ⟨some [], some 20, some 1, some 1⟩ 0 0).completion]) :=
  have h : (chat_completions ⟨fun _ => [], 0, fun _ => "hello", fun _ => []⟩ "m"
      ⟨some [], some 20, some 1, some 1⟩ 0 0).decoded ≠ "" := by decide
  ⟨h, nonempty_completion _ _ _ _ _ h⟩

theorem hexDigits_length (k : Nat) : ∀ n : Nat, (hexDigits k n).length = k := by
  induction k with
  | zero => intro n; rfl
  | succ k ih => intro n; simp [hexDigits, ih]

theorem hexDigit_mem_alphabet :
    ∀ d < 16, ("0123456789abcdef".data).contains (hexDigit d) = true := by
  decide

theorem hexDigits_all_hex (k : Nat) :
    ∀ n : Nat,
      (hexDigits k n).all (fun c => ("0123456789abcdef".data).contains c) = true := by
  induction k with
  | zero => intro n; rfl
  | succ k ih =>
    intro n
    simp only [hexDigits, List.all_append, ih, Bool.true_and, List.all_cons,
      List.all_nil, Bool.and_true]
    exact hexDigit_mem_alphabet (n % 16) (Nat.mod_lt n (by norm_num))

/-- C10: every response id is `"chatcmpl-"` followed by exactly 12
lowercase hexadecimal characters, hence has length 21 and that constant
prefix of 9 characters. -/
theorem response_id_format (n : Nat) :
    (responseIdOf n).length = 21 ∧
    (responseIdOf n).data.take 9 = "chatcmpl-".data ∧
    ((responseIdOf n).data.drop 9).length = 12 ∧
    ((responseIdOf n).data.drop 9).all
      (fun c => ("0123456789abcdef".data).contains c) = true := by
  have hdata : (responseIdOf n).data =
      "chatcmpl-".data ++ (hexDigits 32 (n % 2 ^ 128)).take 12 := rfl
  have h9 : ("chatcmpl-".data).length = 9 := rfl
  have h32 : (hexDigits 32 (n % 2 ^ 128)).length = 32 := hexDigits_length 32 _
  have htk : ((hexDigits 32 (n % 2 ^ 128)).take 12).length = 12 := by
    rw [List.length_take, h32]
    norm_num
  refine ⟨?_, ?_, ?_, ?_⟩
  · show (responseIdOf n).data.length = 21
    rw [hdata, List.length_append, h9, htk]
  · rw [hdata]
    exact List.take_left' h9
  · rw [hdata, List.drop_left' h9]
    exact htk
  · rw [hdata, List.drop_left' h9]
    rw [List.all_eq_true]
    intro c hc
    have := List.all_eq_true.mp (hexDigits_all_hex 32 (n % 2 ^ 128))
    exact this c (List.take_subset 12 _ hc)

end MiniAI
